import Mathlib

/-!
Shallow embedding of the Whisperrr python-service core
(`app/config.py`, `app/main.py`, `app/whisper_service.py`, and the
job manager exercised by `tests/test_job_manager.py`), together with
theorems settling the specification claims about it.

Conventions of the embedding:
* Python floats (timestamps, durations, temperatures, progress values)
  are modelled as rationals `ℚ`; every float operation the claims touch
  is a comparison or an exact sum/difference, so no rounding behaviour
  is lost.
* `async` methods are modelled as pure state transformers
  `ServiceState → Except WhisperrrException α × ServiceState`
  (single-threaded interleaving semantics: each call runs to completion
  against the state it was given, which is how the cited unit tests
  exercise the code as well).
* External collaborators (the whisper model loader, audio validation,
  preprocessing, the model's transcribe call, `get_memory_usage`,
  wall-clock time) are opaque parameters of the corresponding
  definitions, so the theorems quantify over every possible behaviour
  of those collaborators.
-/

namespace Whisperrr

/-- From `app/config.py` (`Settings`): the defaulted fields the embedded
code paths read. -/
structure Settings where
  model_size : String := "base"
  max_file_size_mb : Nat := 25
  max_concurrent_transcriptions : Nat := 3
  cleanup_temp_files : Bool := true
  available_model_sizes : List String := ["tiny", "base", "small", "medium", "large"]
deriving Repr, DecidableEq

/-- From `app/config.py`: the global `settings = Settings()` instance. -/
def settings : Settings := {}

/-- Modelled from the spec: the error taxonomy of `app/exceptions.py`
(the module itself is not in the provided sources; its members are the
ones imported by `whisper_service.py`/`main.py` plus the taxonomy of
spec section 7, and the constructor arguments are the keyword arguments
the in-source call sites pass). -/
inductive WhisperrrException where
  | modelNotLoaded (message : String)
  | modelLoadInProgress (message : String)
  | modelLoadFailed (message : String) (model_size : String) (original_error : Option String)
  | transcriptionFailed (message : String) (original_error : String) (file_path : String)
  | audioProcessingError (message : String)
  | fileTooLarge (message : String)
  | invalidAudioFormat (message : String)
  | fileSystemError (message : String)
deriving Repr, DecidableEq

/-- Modelled from the spec: the stable machine-readable `error_code`
each exception carries (spec section 7; the codes themselves appear
verbatim as the keys of `main.py`'s `status_code_map`). -/
def WhisperrrException.error_code : WhisperrrException → String
  | .modelNotLoaded _ => "MODEL_NOT_LOADED"
  | .modelLoadInProgress _ => "MODEL_LOAD_IN_PROGRESS"
  | .modelLoadFailed _ _ _ => "MODEL_LOAD_FAILED"
  | .transcriptionFailed _ _ _ => "TRANSCRIPTION_FAILED"
  | .audioProcessingError _ => "AUDIO_PROCESSING_ERROR"
  | .fileTooLarge _ => "FILE_TOO_LARGE"
  | .invalidAudioFormat _ => "INVALID_AUDIO_FORMAT"
  | .fileSystemError _ => "FILE_SYSTEM_ERROR"

/-- Recognizer for the `ModelLoadInProgress` member of the taxonomy. -/
def WhisperrrException.is_model_load_in_progress : WhisperrrException → Bool
  | .modelLoadInProgress _ => true
  | _ => false

/-- From `app/main.py` (`whisperrr_exception_handler`): the literal
`status_code_map` dict mapping error codes to HTTP status codes. -/
def status_code_map : List (String × Nat) :=
  [("INVALID_AUDIO_FORMAT", 400),
   ("FILE_TOO_LARGE", 413),
   ("MODEL_NOT_LOADED", 503),
   ("TRANSCRIPTION_FAILED", 500),
   ("MODEL_LOAD_FAILED", 500),
   ("AUDIO_PROCESSING_ERROR", 400),
   ("FILE_SYSTEM_ERROR", 500)]

/-- From `app/main.py`: `status_code = status_code_map.get(exc.error_code, 500)`. -/
def status_code_for (e : WhisperrrException) : Nat :=
  (status_code_map.lookup e.error_code).getD 500

/-- From `app/whisper_service.py`: the mutable instance state of
`WhisperService` that the embedded methods read and write.  `μ` is the
type of the opaque native whisper model object.  `executor_shutdown`
records whether `self._executor.shutdown(wait=True)` has been called. -/
structure ServiceState (μ : Type) where
  model : Option μ
  model_size : Option String
  model_load_time : Option ℚ
  is_loading : Bool
  active_transcriptions : Int
  executor_shutdown : Bool
deriving Repr, DecidableEq

/-- From `WhisperService.__init__`: the field initialization it performs
on a fresh instance. -/
def initial_state (μ : Type) : ServiceState μ :=
  { model := none
    model_size := none
    model_load_time := none
    is_loading := false
    active_transcriptions := 0
    executor_shutdown := false }

/-- From `app/whisper_service.py` (`load_model`): the result dict
`{"success", "model_size", "load_time_seconds", "memory_usage_mb", "message"}`. -/
structure LoadResult where
  success : Bool
  model_size : String
  load_time_seconds : ℚ
  memory_usage_mb : ℚ
  message : String
deriving Repr, DecidableEq

/-- From `app/whisper_service.py`: `WhisperService.load_model`.

Parameters standing for external collaborators: `loader` is
`_load_model_sync` run in the executor (returning the loaded model or
the `str` of the exception it raised), `mem` is `get_memory_usage()`,
`t0` and `t1` are the wall-clock readings at `start_time = time.time()`
and after the load (so `t1 - t0` is `load_time`).  `model_size?` is the
optional `model_size` argument (`none` defaults to
`settings.model_size`). -/
def load_model {μ : Type} (loader : String → Except String μ) (mem t0 t1 : ℚ)
    (s : ServiceState μ) (model_size? : Option String) :
    Except WhisperrrException LoadResult × ServiceState μ :=
  let model_size := model_size?.getD settings.model_size
  if s.model.isSome && s.model_size == some model_size && !s.is_loading then
    (Except.ok
      { success := true
        model_size := model_size
        load_time_seconds := 0
        memory_usage_mb := mem
        message := "Model " ++ model_size ++ " already loaded" }, s)
  else if s.is_loading then
    (Except.error (.modelLoadFailed "Model is already being loaded" model_size none), s)
  else
    match loader model_size with
    | Except.ok m =>
        (Except.ok
          { success := true
            model_size := model_size
            load_time_seconds := t1 - t0
            memory_usage_mb := mem
            message := "Model " ++ model_size ++ " loaded successfully" },
         { s with
            model := some m
            model_size := some model_size
            model_load_time := some t1
            is_loading := false })
    | Except.error e =>
        (Except.error
          (.modelLoadFailed ("Failed to load model " ++ model_size) model_size (some e)),
         { s with is_loading := false })

/-- The `file_info` dict returned by the external `validate_audio_file`
collaborator, as read by `transcribe_audio`/`_create_transcription_response`
(`file_info["duration"]`, `file_info["file_size"]`). -/
structure FileInfo where
  duration : ℚ
  file_size : Nat
deriving Repr, DecidableEq

/-- One raw segment dict of the whisper result, as read by
`_create_transcription_response` (`start`, `end`, `text`, optional
`avg_logprob`). -/
structure RawSegment where
  seg_start : ℚ
  seg_end : ℚ
  text : String
  avg_logprob : Option ℚ
deriving Repr, DecidableEq

/-- The raw whisper result dict, as read by
`_create_transcription_response` (`text`, `language`, `segments`). -/
structure RawResult where
  text : String
  language : Option String
  segments : List RawSegment
deriving Repr, DecidableEq

/-- From `app/models.py` usage in `whisper_service.py`: one
`TranscriptionSegment` of the response. -/
structure TranscriptionSegment where
  start_time : ℚ
  end_time : ℚ
  text : String
  confidence : Option ℚ
deriving Repr, DecidableEq

/-- From `app/models.py` usage in `whisper_service.py`:
the `TranscriptionResponse` payload. -/
structure TranscriptionResponse where
  text : String
  language : Option String
  duration : ℚ
  segments : List TranscriptionSegment
  confidence_score : Option ℚ
  model_used : Option String
  processing_time : ℚ
deriving Repr, DecidableEq

/-- From `app/whisper_service.py`:
`WhisperService._create_transcription_response`. -/
def create_transcription_response {μ : Type} (s : ServiceState μ)
    (whisper_result : RawResult) (file_info : FileInfo)
    (processing_time : ℚ) : TranscriptionResponse :=
  let segments := whisper_result.segments.map fun seg =>
    { start_time := seg.seg_start
      end_time := seg.seg_end
      text := seg.text.trim
      confidence := none }
  let confidences := whisper_result.segments.filterMap RawSegment.avg_logprob
  let confidence_score : Option ℚ :=
    if whisper_result.segments ≠ [] ∧ confidences ≠ [] then
      some (max 0 (min 1 (confidences.sum / confidences.length + 1)))
    else none
  { text := whisper_result.text.trim
    language := whisper_result.language
    duration := file_info.duration
    segments := segments
    confidence_score := confidence_score
    model_used := s.model_size
    processing_time := processing_time }

/-- From `app/whisper_service.py`, `WhisperService.transcribe_audio`:
the task block between `self._active_transcriptions += 1` and the
`finally` that undoes it — validate, preprocess, run the model,
shape the response; any exception is wrapped into
`TranscriptionFailed` and the counter is decremented in all outcomes.

External collaborators as parameters: `validate` is
`validate_audio_file`, `preprocess` is `preprocess_audio`, and
`transcribe` is `self._model.transcribe(...)` via `_transcribe_sync`
(each returning its value or the `str` of the exception it raised);
`t1 - t0` stands for the measured `processing_time`. -/
def transcribe_task {μ : Type}
    (validate : String → Except String FileInfo)
    (preprocess : String → Except String String)
    (transcribe : μ → String → Option String → ℚ → String → Except String RawResult)
    (t0 t1 : ℚ) (s : ServiceState μ) (file_path : String)
    (language : Option String) (temperature : ℚ) (task : String) :
    Except WhisperrrException TranscriptionResponse × ServiceState μ :=
  let s2 := { s with active_transcriptions := s.active_transcriptions + 1 }
  let body : Except String TranscriptionResponse := do
    let file_info ← validate file_path
    let processed_file ← preprocess file_path
    match s2.model with
    | some m => do
        let result ← transcribe m processed_file language temperature task
        pure (create_transcription_response s2 result file_info (t1 - t0))
    | none => Except.error "No model is currently loaded"
  let s3 := { s2 with active_transcriptions := s2.active_transcriptions - 1 }
  match body with
  | Except.ok response => (Except.ok response, s3)
  | Except.error e =>
      (Except.error (.transcriptionFailed "Transcription failed" e file_path), s3)

/-- From `app/whisper_service.py`: `WhisperService.transcribe_audio`.
The precondition checks and the optional model reload; the increment /
`try` / `finally`-decrement block is `transcribe_task` above. -/
def transcribe_audio {μ : Type}
    (validate : String → Except String FileInfo)
    (preprocess : String → Except String String)
    (transcribe : μ → String → Option String → ℚ → String → Except String RawResult)
    (loader : String → Except String μ) (mem t0 t1 : ℚ)
    (s : ServiceState μ) (file_path : String) (model_size? : Option String)
    (language : Option String) (temperature : ℚ) (task : String) :
    Except WhisperrrException TranscriptionResponse × ServiceState μ :=
  if s.model.isNone then
    (Except.error (.modelNotLoaded "No model is currently loaded"), s)
  else
    -- `if model_size and model_size != self._model_size:` (Python truthiness:
    -- `None` and `""` skip the reload)
    let reload :=
      match model_size? with
      | none => false
      | some ms => ms != "" && s.model_size != some ms
    if reload then
      match load_model loader mem t0 t1 s model_size? with
      | (Except.error e, s') => (Except.error e, s')
      | (Except.ok _, s') =>
          transcribe_task validate preprocess transcribe t0 t1 s' file_path
            language temperature task
    else
      transcribe_task validate preprocess transcribe t0 t1 s file_path
        language temperature task

/-- From `app/whisper_service.py`: one scheduler step of
`WhisperService.cleanup`.  While `self._active_transcriptions > 0` the
coroutine only sleeps (no state change); once the counter is no longer
positive it runs `self._executor.shutdown(wait=True)` and, if a model
is loaded, clears `self._model` and `self._model_size`. -/
def cleanup_step {μ : Type} (s : ServiceState μ) : ServiceState μ :=
  if 0 < s.active_transcriptions then s
  else
    let s1 := { s with executor_shutdown := true }
    if s1.model.isSome then
      { s1 with model := none, model_size := none }
    else s1

/-- From `app/whisper_service.py`: `is_model_loaded`. -/
def is_model_loaded {μ : Type} (s : ServiceState μ) : Bool :=
  s.model.isSome

/-- From `app/whisper_service.py`: `get_active_transcriptions`. -/
def get_active_transcriptions {μ : Type} (s : ServiceState μ) : Int :=
  s.active_transcriptions

/-- From `app/whisper_service.py`: `get_current_model_size`. -/
def get_current_model_size {μ : Type} (s : ServiceState μ) : Option String :=
  s.model_size

/- ### Singleton construction (`WhisperService.__new__` / `__init__`) -/

/-- One heap object of class `WhisperService`: the
`hasattr(self, "_initialized")` marker plus the instance fields
(`initialized = false` models a freshly allocated object on which
`__init__` has not yet run, so its attribute dictionary is empty and
the `ServiceState` payload is meaningless until `init` runs). -/
structure SvcInstance (μ : Type) where
  initialized : Bool
  st : ServiceState μ
deriving Repr, DecidableEq

/-- The class-level state of `WhisperService` (`cls._instance`) plus a
heap of allocated instances; an object's identity is its index in the
heap. -/
structure ClassState (μ : Type) where
  instance_ref : Option Nat
  heap : List (SvcInstance μ)
deriving Repr, DecidableEq

/-- A freshly allocated, not-yet-initialized object
(`super().__new__(cls)`). -/
def fresh_instance (μ : Type) : SvcInstance μ :=
  { initialized := false, st := initial_state μ }

/-- From `WhisperService.__new__`: double-checked singleton allocation —
return the existing `cls._instance` if there is one, otherwise allocate
a fresh object and store it in `cls._instance`.  Returns the object's
identity and the updated class state. -/
def WhisperService_new {μ : Type} (c : ClassState μ) : Nat × ClassState μ :=
  match c.instance_ref with
  | some i => (i, c)
  | none =>
      (c.heap.length,
       { instance_ref := some c.heap.length
         heap := c.heap ++ [fresh_instance μ] })

/-- From `WhisperService.__init__`: `if hasattr(self, "_initialized"):
return`, otherwise set `_initialized = True` and initialize every
instance field. -/
def WhisperService_init {μ : Type} (inst : SvcInstance μ) : SvcInstance μ :=
  if inst.initialized then inst
  else { initialized := true, st := initial_state μ }

/-- The Python expression `WhisperService()`: `__new__` followed by
`__init__` on the returned object.  Returns the object's identity and
the updated class state. -/
def WhisperService_construct {μ : Type} (c : ClassState μ) : Nat × ClassState μ :=
  let (i, c1) := WhisperService_new c
  (i, { c1 with
          heap := c1.heap.set i (WhisperService_init (c1.heap.getD i (fresh_instance μ))) })

/- ### Job manager (`app/job_manager.py`) -/

/-- Modelled from the spec: the job state machine enum of
`app/job_manager.py` (the module is not in the provided sources; only
`tests/test_job_manager.py` is).  States per spec section 4.3. -/
inductive JobStatus where
  | pending
  | processing
  | completed
  | failed
deriving Repr, DecidableEq

/-- Modelled from the spec: the `Job` record of `app/job_manager.py`
(module not in the provided sources), with the attributes named by spec
section 3 and asserted by `tests/test_job_manager.py`
(`job_id`, `status`, `progress`, `message`, `result`, `error`,
`created_at`). -/
structure Job where
  job_id : String
  status : JobStatus
  progress : ℚ
  message : String
  result : Option String
  error : Option String
  created_at : ℚ
deriving Repr, DecidableEq

/-- Modelled from the spec: `Job.__init__` — a fresh job is `PENDING`
with progress `0`, no result and no error
(`tests/test_job_manager.py::test_job_creation_initializes_correctly`). -/
def Job.mk_new (job_id : String) (created_at : ℚ) : Job :=
  { job_id := job_id
    status := .pending
    progress := 0
    message := ""
    result := none
    error := none
    created_at := created_at }

/-- Modelled from the spec: `Job.update_progress(value, message=None)` —
"clamps `value` into [0,100] before storing; updates `message` if
provided; does not change `status`" (spec section 4.3, exercised by
`tests/test_job_manager.py::test_update_progress_clamps_to_0_100` and
`test_update_progress_sets_progress`). -/
def Job.update_progress (j : Job) (value : ℚ) (message : Option String) : Job :=
  { j with
      progress := max 0 (min 100 value)
      message := message.getD j.message }

/-- Modelled from the spec: the `JobManager` registry of
`app/job_manager.py` (module not in the provided sources): a mapping
from job id to `Job`. -/
structure JobManager where
  jobs : List (String × Job)
deriving Repr, DecidableEq

/-- Modelled from the spec: `JobManager.get_job(id)` — lookup, `None`
when absent. -/
def JobManager.get_job (m : JobManager) (job_id : String) : Option Job :=
  m.jobs.lookup job_id

/-- Modelled from the spec: the registry-level
`updateProgress(id, value, message?)` operation of spec section 4.3 —
update the job stored under `id` via `Job.update_progress`, leaving
every other job unchanged. -/
def JobManager.update_progress (m : JobManager) (job_id : String)
    (value : ℚ) (message : Option String) : JobManager :=
  { jobs := m.jobs.map fun p =>
      if p.1 = job_id then (p.1, p.2.update_progress value message) else p }

/- ### Concrete example states and collaborators used by witnesses -/

/-- A concrete service state with the `"base"` model (represented by the
native handle `7`) loaded at time `3` and no load in progress. -/
def base_state : ServiceState Nat :=
  { model := some 7
    model_size := some "base"
    model_load_time := some 3
    is_loading := false
    active_transcriptions := 0
    executor_shutdown := false }

/-- `base_state` with a model load in progress. -/
def loading_state : ServiceState Nat :=
  { base_state with is_loading := true }

/-- A loader collaborator that always succeeds, returning handle `9`. -/
def ok_loader : String → Except String Nat := fun _ => Except.ok 9

/-- A loader collaborator that always raises `Exception("Load failed")`. -/
def failing_loader : String → Except String Nat := fun _ => Except.error "Load failed"

/- ### Shared lemmas about `load_model` -/

/-- `load_model` never touches the active-transcription counter. -/
theorem load_model_active_transcriptions {μ : Type}
    (loader : String → Except String μ) (mem t0 t1 : ℚ)
    (s : ServiceState μ) (model_size? : Option String) :
    (load_model loader mem t0 t1 s model_size?).2.active_transcriptions =
      s.active_transcriptions := by
  unfold load_model
  dsimp only
  split
  · rfl
  · split
    · rfl
    · split <;> rfl

/-- `load_model` preserves the coherence property "no model loaded
implies no model size recorded". -/
theorem load_model_size_coherence {μ : Type}
    (loader : String → Except String μ) (mem t0 t1 : ℚ)
    (s : ServiceState μ) (model_size? : Option String)
    (h : s.model = none → s.model_size = none) :
    (load_model loader mem t0 t1 s model_size?).2.model = none →
      (load_model loader mem t0 t1 s model_size?).2.model_size = none := by
  unfold load_model
  dsimp only
  split
  · exact h
  · split
    · exact h
    · split
      · intro hc; cases hc
      · exact h

/-- The initial state of a fresh instance satisfies the size-coherence
property assumed by the cleanup theorem. -/
theorem initial_state_size_coherence (μ : Type) :
    (initial_state μ).model = none → (initial_state μ).model_size = none :=
  fun _ => rfl

/- ### Claim theorems: model loading -/

/-- C1 (amended): if `load_model` is called while a load is already in
progress (`is_loading = true`), the call fails with `ModelLoadFailed`
("Model is already being loaded") — not with a distinct
`ModelLoadInProgress` — and leaves the whole service state, in
particular the current model handle, its size and its load timestamp,
unchanged, for every requested model size. -/
theorem load_model_concurrent_raises_model_load_failed {μ : Type}
    (loader : String → Except String μ) (mem t0 t1 : ℚ)
    (s : ServiceState μ) (model_size? : Option String)
    (h : s.is_loading = true) :
    load_model loader mem t0 t1 s model_size? =
      (Except.error (.modelLoadFailed "Model is already being loaded"
        (model_size?.getD settings.model_size) none), s) := by
  unfold load_model
  simp [h]

/-- C1 witness: the amended theorem applied to a concrete loading
state. -/
theorem load_model_concurrent_raises_model_load_failed_witness :
    load_model ok_loader 0 0 0 loading_state (some "small") =
      (Except.error (.modelLoadFailed "Model is already being loaded" "small" none),
       loading_state) :=
  load_model_concurrent_raises_model_load_failed ok_loader 0 0 0 loading_state
    (some "small") rfl

/-- C1 counterexample: at a concrete state with a load in progress, the
exception actually raised is `ModelLoadFailed`, which is not the
`ModelLoadInProgress` member of the taxonomy the claim names. -/
theorem load_model_concurrent_counterexample :
    (load_model ok_loader 0 0 0 loading_state (some "small")).1 =
      Except.error (.modelLoadFailed "Model is already being loaded" "small" none) ∧
    (WhisperrrException.modelLoadFailed "Model is already being loaded" "small"
        none).is_model_load_in_progress = false :=
  ⟨rfl, rfl⟩

/-- C2: if the external model-loading step raises during `load_model`
(cache miss, no load in progress), the call fails with
`ModelLoadFailed` carrying the requested model id and the original
cause, and the service state — in particular the previously current
model handle, its model size and its load timestamp — is exactly as it
was before the call. -/
theorem load_model_failure_preserves_current_handle {μ : Type}
    (loader : String → Except String μ) (mem t0 t1 : ℚ)
    (s : ServiceState μ) (ms err : String)
    (hmiss : (s.model.isSome && s.model_size == some ms) = false)
    (hl : s.is_loading = false)
    (hfail : loader ms = Except.error err) :
    load_model loader mem t0 t1 s (some ms) =
      (Except.error (.modelLoadFailed ("Failed to load model " ++ ms) ms (some err)),
       s) := by
  obtain ⟨mo, msz, mlt, il, atc, ex⟩ := s
  simp only at hmiss hl
  subst hl
  unfold load_model
  simp [hmiss, hfail]

/-- C2 witness: the theorem applied to a concrete loaded state and a
failing loader. -/
theorem load_model_failure_preserves_current_handle_witness :
    load_model failing_loader 0 0 3 base_state (some "small") =
      (Except.error (.modelLoadFailed "Failed to load model small" "small"
        (some "Load failed")), base_state) :=
  load_model_failure_preserves_current_handle failing_loader 0 0 3 base_state
    "small" "Load failed" (by decide) rfl rfl

/-- C6: if a model with the requested `model_size` is already current
and no load is in progress, `load_model` succeeds immediately with
`load_time_seconds = 0` and leaves the state unchanged; the result is
the same for every loader collaborator, so the external loader is never
invoked. -/
theorem load_model_cache_hit {μ : Type}
    (loader : String → Except String μ) (mem t0 t1 : ℚ)
    (s : ServiceState μ) (ms : String)
    (hm : s.model.isSome = true) (hsz : s.model_size = some ms)
    (hl : s.is_loading = false) :
    load_model loader mem t0 t1 s (some ms) =
      (Except.ok
        { success := true
          model_size := ms
          load_time_seconds := 0
          memory_usage_mb := mem
          message := "Model " ++ ms ++ " already loaded" }, s) := by
  unfold load_model
  simp [hm, hsz, hl]

/-- C6 witness: the theorem applied to a concrete state holding the
`"base"` model, with a loader that would fail if it were invoked. -/
theorem load_model_cache_hit_witness :
    load_model failing_loader 5 0 3 base_state (some "base") =
      (Except.ok
        { success := true
          model_size := "base"
          load_time_seconds := 0
          memory_usage_mb := 5
          message := "Model base already loaded" }, base_state) :=
  load_model_cache_hit failing_loader 5 0 3 base_state "base" rfl rfl rfl

/-- C7: every `load_model` call that starts with the loading flag
released (in particular every call that enters the loading path)
finishes with the loading flag released again, whatever the loader's
outcome — no outcome leaves the manager permanently locked. -/
theorem load_model_releases_loading_flag {μ : Type}
    (loader : String → Except String μ) (mem t0 t1 : ℚ)
    (s : ServiceState μ) (model_size? : Option String)
    (h : s.is_loading = false) :
    (load_model loader mem t0 t1 s model_size?).2.is_loading = false := by
  unfold load_model
  dsimp only
  split
  · exact h
  · rw [h]
    simp only [Bool.false_eq_true, if_false]
    split <;> rfl

/-- C7 witness: the theorem applied to a concrete state and a failing
loader (the failure outcome still releases the flag). -/
theorem load_model_releases_loading_flag_witness :
    (load_model failing_loader 0 0 3 base_state (some "small")).2.is_loading = false :=
  load_model_releases_loading_flag failing_loader 0 0 3 base_state (some "small") rfl

/- ### Claim theorems: HTTP status mapping -/

/-- C4 (amended): the error-to-status mapping of
`whisperrr_exception_handler` sends model-not-loaded to 503, invalid
audio format to 400, file too large to 413, model-load failure and
transcription failure to 500, and audio-processing errors to 400; there
is no load-in-progress mapping — the exception actually raised when a
load is attempted while one is in progress is a `ModelLoadFailed`,
which maps to 500, not 409. -/
theorem status_code_mapping :
    (∀ m, status_code_for (.modelNotLoaded m) = 503) ∧
    (∀ m, status_code_for (.invalidAudioFormat m) = 400) ∧
    (∀ m, status_code_for (.fileTooLarge m) = 413) ∧
    (∀ m ms oe, status_code_for (.modelLoadFailed m ms oe) = 500) ∧
    (∀ m oe fp, status_code_for (.transcriptionFailed m oe fp) = 500) ∧
    (∀ m, status_code_for (.audioProcessingError m) = 400) ∧
    ((load_model ok_loader 0 0 0 loading_state (some "base")).1 =
       Except.error (.modelLoadFailed "Model is already being loaded" "base" none) ∧
     status_code_for
       (.modelLoadFailed "Model is already being loaded" "base" none) = 500) :=
  ⟨fun _ => rfl, fun _ => rfl, fun _ => rfl, fun _ _ _ => rfl, fun _ _ _ => rfl,
   fun _ => rfl, rfl, rfl⟩

/-- C4 counterexample: the `MODEL_LOAD_IN_PROGRESS` code has no entry in
`status_code_map` and falls through to the 500 default, and the
exception a concrete in-progress `load_model` call actually raises also
maps to 500 — neither gives the 409 the claim states. -/
theorem status_code_mapping_counterexample :
    status_code_for (.modelLoadInProgress "Model is already being loaded") = 500 ∧
    (load_model ok_loader 0 0 0 loading_state (some "base")).1 =
      Except.error (.modelLoadFailed "Model is already being loaded" "base" none) ∧
    status_code_for
      (.modelLoadFailed "Model is already being loaded" "base" none) ≠ 409 :=
  ⟨rfl, rfl, by decide⟩

/- ### Claim theorems: transcription counter and cleanup -/

/-- C8: every `transcribe_audio` call — whether it returns a response or
raises, and whatever the collaborators do — finishes with the
active-transcription counter equal to its value before the call: the
increment at task start is always paired with the decrement in the
`finally` block. -/
theorem transcribe_audio_counter_balanced {μ : Type}
    (validate : String → Except String FileInfo)
    (preprocess : String → Except String String)
    (transcribe : μ → String → Option String → ℚ → String → Except String RawResult)
    (loader : String → Except String μ) (mem t0 t1 : ℚ)
    (s : ServiceState μ) (file_path : String) (model_size? : Option String)
    (language : Option String) (temperature : ℚ) (task : String) :
    (transcribe_audio validate preprocess transcribe loader mem t0 t1 s file_path
        model_size? language temperature task).2.active_transcriptions =
      s.active_transcriptions := by
  have htask : ∀ s₀ : ServiceState μ,
      (transcribe_task validate preprocess transcribe t0 t1 s₀ file_path
          language temperature task).2.active_transcriptions =
        s₀.active_transcriptions := by
    intro s₀
    unfold transcribe_task
    dsimp only
    split <;> (dsimp only; omega)
  have hload := load_model_active_transcriptions loader mem t0 t1 s model_size?
  unfold transcribe_audio
  dsimp only
  split
  · rfl
  · split
    · rcases hE : load_model loader mem t0 t1 s model_size? with ⟨out, s'⟩
      rw [hE] at hload
      cases out with
      | error e => simp only [hE]; exact hload
      | ok v => simp only [hE]; rw [htask s']; exact hload
    · exact htask s

/-- C9: one scheduler step of `cleanup` never shuts down the worker pool
or releases the model while the active-transcription counter is
positive (the state is left entirely unchanged); once the counter is
zero, the step shuts down the executor and clears the model, so that
afterwards the current model and the model size are both `None` (the
latter using the size-coherence property every reachable state
satisfies). -/
theorem cleanup_waits_then_clears (μ : Type) :
    (∀ s : ServiceState μ, 0 < s.active_transcriptions → cleanup_step s = s) ∧
    (∀ s : ServiceState μ, (s.model = none → s.model_size = none) →
        s.active_transcriptions = 0 →
        (cleanup_step s).executor_shutdown = true ∧
        (cleanup_step s).model = none ∧
        (cleanup_step s).model_size = none) := by
  constructor
  · intro s h
    unfold cleanup_step
    rw [if_pos h]
  · intro s hcoh hz
    unfold cleanup_step
    rw [hz]
    simp only [lt_irrefl, if_false]
    cases hm : s.model with
    | some m => simp [hm]
    | none => simp [hm, hcoh hm]

/-- C9 witness: the theorem applied to concrete states — a busy state is
left untouched, and `base_state` (counter zero) gets its executor shut
down and its model cleared. -/
theorem cleanup_waits_then_clears_witness :
    cleanup_step { base_state with active_transcriptions := 1 } =
      { base_state with active_transcriptions := 1 } ∧
    ((cleanup_step base_state).executor_shutdown = true ∧
     (cleanup_step base_state).model = none ∧
     (cleanup_step base_state).model_size = none) :=
  ⟨(cleanup_waits_then_clears Nat).1 _ (by decide),
   (cleanup_waits_then_clears Nat).2 base_state (by decide) rfl⟩

/- ### Claim theorems: transcription error wrapping -/

/-- C3 (amended): for every audio path and options (with no model
switch triggered), if audio validation or preprocessing fails during a
`transcribe_audio` call, the operation fails with `TranscriptionFailed`
wrapping the original cause and the file path — not with
`AudioProcessingError`. -/
theorem transcribe_audio_wraps_input_failures {μ : Type}
    (validate : String → Except String FileInfo)
    (preprocess : String → Except String String)
    (transcribe : μ → String → Option String → ℚ → String → Except String RawResult)
    (loader : String → Except String μ) (mem t0 t1 : ℚ)
    (s : ServiceState μ) (m : μ) (file_path : String)
    (language : Option String) (temperature : ℚ) (task : String)
    (hm : s.model = some m) :
    (∀ err, validate file_path = Except.error err →
      (transcribe_audio validate preprocess transcribe loader mem t0 t1 s file_path
          none language temperature task).1 =
        Except.error (.transcriptionFailed "Transcription failed" err file_path)) ∧
    (∀ fi err, validate file_path = Except.ok fi →
      preprocess file_path = Except.error err →
      (transcribe_audio validate preprocess transcribe loader mem t0 t1 s file_path
          none language temperature task).1 =
        Except.error (.transcriptionFailed "Transcription failed" err file_path)) := by
  constructor
  · intro err hv
    unfold transcribe_audio transcribe_task
    simp [hm, hv, Except.instMonad, Except.bind, Except.map]
  · intro fi err hv hp
    unfold transcribe_audio transcribe_task
    simp [hm, hv, hp, Except.instMonad, Except.bind, Except.map]

/-- C3 witness: the amended theorem applied to a concrete loaded state
whose preprocessing collaborator raises
`AudioProcessingError("Preprocessing failed")`. -/
theorem transcribe_audio_wraps_input_failures_witness :
    (transcribe_audio (fun _ => Except.ok ⟨1, 10⟩)
        (fun _ => Except.error "Preprocessing failed")
        (fun _ _ _ _ _ => Except.error "unused") failing_loader 0 0 2 base_state
        "audio.mp3" none none 0 "transcribe").1 =
      Except.error
        (.transcriptionFailed "Transcription failed" "Preprocessing failed" "audio.mp3") :=
  (transcribe_audio_wraps_input_failures (fun _ => Except.ok ⟨1, 10⟩)
      (fun _ => Except.error "Preprocessing failed")
      (fun _ _ _ _ _ => Except.error "unused") failing_loader 0 0 2 base_state 7
      "audio.mp3" none 0 "transcribe" rfl).2
    ⟨1, 10⟩ "Preprocessing failed" rfl rfl

/-- C3 counterexample: at a concrete input whose preprocessing step
fails, `transcribe_audio` raises `TranscriptionFailed`, whose error
code is not `AUDIO_PROCESSING_ERROR` — the claim's stated exception
type is wrong. -/
theorem transcribe_audio_not_audio_processing_error :
    (transcribe_audio (fun _ => Except.ok ⟨2, 20⟩)
        (fun _ => Except.error "Preprocessing failed")
        (fun _ _ _ _ _ => Except.error "unused") ok_loader 0 0 2 base_state
        "clip.mp3" none none 0 "transcribe").1 =
      Except.error
        (.transcriptionFailed "Transcription failed" "Preprocessing failed" "clip.mp3") ∧
    (WhisperrrException.transcriptionFailed "Transcription failed"
        "Preprocessing failed" "clip.mp3").error_code ≠ "AUDIO_PROCESSING_ERROR" :=
  ⟨rfl, by decide⟩

/- ### Claim theorems: job progress updates -/

/-- Updating the value stored under a key of an association list through
a per-key map is observed by a subsequent lookup of that key. -/
theorem lookup_map_update_key {β : Type} (f : β → β) (k : String) :
    ∀ (l : List (String × β)) (b : β),
      l.lookup k = some b →
      (l.map fun p => if p.1 = k then (p.1, f p.2) else p).lookup k = some (f b) := by
  intro l
  induction l with
  | nil => intro b h; cases h
  | cons p l ih =>
      intro b h
      obtain ⟨k', b'⟩ := p
      by_cases hk : k = k'
      · subst hk
        rw [List.map_cons, if_pos rfl]
        simp only [List.lookup, beq_self_eq_true] at h ⊢
        cases h
        rfl
      · have hk' : (k == k') = false := beq_eq_false_iff_ne.mpr hk
        rw [List.map_cons, if_neg (fun hh => hk hh.symm)]
        simp only [List.lookup, hk'] at h ⊢
        exact ih b h

/-- C5: for every job stored in the registry and every progress value
`v`, the registry-level `update_progress` stores that job back with its
progress clamped into `[0, 100]` (a value below `0` stores `0`, a value
above `100` stores `100`, anything else is stored as is), with its
message replaced exactly when one is provided, and with its status
unchanged. -/
theorem update_progress_clamps (mgr : JobManager) (job_id : String) (j : Job)
    (v : ℚ) (message : Option String)
    (h : mgr.get_job job_id = some j) :
    (mgr.update_progress job_id v message).get_job job_id =
      some (j.update_progress v message) ∧
    (j.update_progress v message).progress =
      (if v < 0 then 0 else if 100 < v then 100 else v) ∧
    (j.update_progress v message).status = j.status ∧
    (j.update_progress v message).message = message.getD j.message := by
  refine ⟨?_, ?_, rfl, rfl⟩
  · exact lookup_map_update_key (fun jb => jb.update_progress v message) job_id
      mgr.jobs j h
  unfold Job.update_progress
  dsimp only
  rcases lt_or_le v 0 with hv | hv
  · rw [if_pos hv, min_eq_right (by linarith), max_eq_left (by linarith)]
  · rw [if_neg (not_lt.mpr hv)]
    rcases lt_or_le 100 v with hv2 | hv2
    · rw [if_pos hv2, min_eq_left (by linarith), max_eq_right (by norm_num)]
    · rw [if_neg (not_lt.mpr hv2), min_eq_right hv2, max_eq_right hv]

/-- A concrete freshly created job, used by the C5 witness. -/
def demo_job : Job := Job.mk_new "job-1" 0

/-- A concrete registry holding `demo_job`, used by the C5 witness. -/
def demo_manager : JobManager := { jobs := [("job-1", demo_job)] }

/-- C5 witness: the theorem applied to a concrete registry, an
out-of-range progress value `150` and a provided message. -/
theorem update_progress_clamps_witness :
    (demo_manager.update_progress "job-1" 150 (some "hi")).get_job "job-1" =
      some (demo_job.update_progress 150 (some "hi")) ∧
    (demo_job.update_progress 150 (some "hi")).progress =
      (if (150 : ℚ) < 0 then 0 else if 100 < (150 : ℚ) then 100 else 150) ∧
    (demo_job.update_progress 150 (some "hi")).status = demo_job.status ∧
    (demo_job.update_progress 150 (some "hi")).message =
      (some "hi").getD demo_job.message :=
  update_progress_clamps demo_manager "job-1" demo_job 150 (some "hi") rfl

/- ### Claim theorems: singleton construction -/

/-- Setting the entry at an index back to the value already there is a
no-op. -/
theorem list_set_getD_self {α : Type} :
    ∀ (l : List α) (i : Nat) (d : α), l.set i (l.getD i d) = l
  | [], _, _ => rfl
  | _ :: _, 0, _ => rfl
  | a :: l, i + 1, d => congrArg (a :: ·) (list_set_getD_self l i d)

/-- Reading back an in-range entry just written. -/
theorem list_getD_set_self {α : Type} :
    ∀ (l : List α) (i : Nat) (v d : α), i < l.length → (l.set i v).getD i d = v
  | [], i, _, _, h => absurd h (Nat.not_lt_zero i)
  | _ :: _, 0, _, _, _ => rfl
  | _ :: l, i + 1, v, d, h => list_getD_set_self l i v d (Nat.lt_of_succ_lt_succ h)

/-- Reading the element just appended at the end. -/
theorem list_getD_concat_length {α : Type} :
    ∀ (l : List α) (a d : α), (l ++ [a]).getD l.length d = a
  | [], _, _ => rfl
  | _ :: l, a, d => list_getD_concat_length l a d

/-- Writing twice at the same index keeps only the second write. -/
theorem list_set_set_same {α : Type} :
    ∀ (l : List α) (i : Nat) (v w : α), (l.set i v).set i w = l.set i w
  | [], _, _, _ => rfl
  | _ :: _, 0, _, _ => rfl
  | a :: l, i + 1, v, w => congrArg (a :: ·) (list_set_set_same l i v w)

/-- Writing past the end of a list is a no-op. -/
theorem list_set_oob {α : Type} :
    ∀ (l : List α) (i : Nat) (v : α), l.length ≤ i → l.set i v = l
  | [], _, _, _ => rfl
  | _ :: _, 0, _, h => absurd h (Nat.not_succ_le_zero _)
  | a :: l, i + 1, v, h => congrArg (a :: ·) (list_set_oob l i v (Nat.le_of_succ_le_succ h))

/-- `__init__` always leaves the `_initialized` marker set. -/
theorem init_initialized {μ : Type} (x : SvcInstance μ) :
    (WhisperService_init x).initialized = true := by
  unfold WhisperService_init
  split
  · assumption
  · rfl

/-- `__init__` on an already-initialized object is the identity (the
`hasattr` guard returns early). -/
theorem init_of_initialized {μ : Type} (x : SvcInstance μ)
    (h : x.initialized = true) : WhisperService_init x = x := by
  unfold WhisperService_init
  rw [h]
  rfl

/-- After a heap slot has been written with an initialized object, a
further `__init__`-and-write-back round leaves the heap unchanged. -/
theorem set_init_stable {μ : Type} (h : List (SvcInstance μ)) (i : Nat)
    (x : SvcInstance μ) :
    (h.set i (WhisperService_init x)).set i
        (WhisperService_init
          ((h.set i (WhisperService_init x)).getD i (fresh_instance μ))) =
      h.set i (WhisperService_init x) := by
  rcases Nat.lt_or_ge i h.length with hi | hi
  · rw [list_getD_set_self _ _ _ _ (by simpa using hi),
        init_of_initialized _ (init_initialized x), list_set_set_same]
  · rw [list_set_oob h i _ hi, list_set_oob h i _ hi]

/-- C10: constructing `WhisperService` is idempotent — after any
`WhisperService()` call, a further call returns the identical object
(the same heap reference) and changes nothing at all: neither the class
state nor the already-initialized instance's fields (loaded model,
loading flag, active-transcription counter) are touched, so all callers
share one process-wide state. -/
theorem whisper_service_singleton {μ : Type} (c : ClassState μ) :
    WhisperService_construct (WhisperService_construct c).2 =
      ((WhisperService_construct c).1, (WhisperService_construct c).2) := by
  obtain ⟨iref, h⟩ := c
  cases iref with
  | some i =>
      unfold WhisperService_construct WhisperService_new
      dsimp only
      rw [set_init_stable]
  | none =>
      unfold WhisperService_construct WhisperService_new
      dsimp only
      rw [list_getD_concat_length]
      rw [set_init_stable]

end Whisperrr
